import Mathlib

/-!
Shallow embedding of the CADAgent Fusion 360 add-on (src/CADAgent.py,
src/lib/api_client.py, src/lib/fusion_utils.py).  Python dictionaries are
modelled as structures with optional fields (none = key absent), Python
exceptions as Except values or explicit outcome parameters, and the
network / Fusion environment as explicit inputs, so every run of the
embedded code is a pure computation on a description of what the outside
world did.
-/

namespace CADAgent

/-- Python truthiness of an optional string field: absent (None) and the
empty string are falsy, every other string is truthy. -/
def pyTruthy (o : Option String) : Bool := o.getD "" != ""

/-- Python truthiness of an optional boolean field: only a present True is
truthy. -/
def pyTruthyB (o : Option Bool) : Bool := o == some true

/-- Character-wise lowercasing, modelling str.lower() on the ASCII error
texts the code pattern-matches on. -/
def lowerStr (s : String) : String := String.mk (s.data.map Char.toLower)

/-- Whether the first list is a prefix of the second (character lists). -/
def prefixAt : List Char → List Char → Bool
  | [], _ => true
  | _ :: _, [] => false
  | p :: ps, h :: hs => p == h && prefixAt ps hs

/-- Whether pat occurs as a contiguous substring of hay, modelling the
Python expression pat in hay. -/
def occursIn (pat : List Char) : List Char → Bool
  | [] => pat.isEmpty
  | h :: hs => prefixAt pat (h :: hs) || occursIn pat hs

/-- Substring test on strings (Python: pat in hay). -/
def strHas (hay pat : String) : Bool := occursIn pat.data hay.data

/-- Strip leading and trailing whitespace, modelling str.strip(). -/
def pyStrip (s : String) : String :=
  String.mk (((s.data.dropWhile Char.isWhitespace).reverse.dropWhile
    Char.isWhitespace).reverse)

/-- The text after the first occurrence of pat in hay, or none when pat does
not occur: the second component of hay.split(pat, 1). -/
def afterFirstAux (pat : List Char) : List Char → Option (List Char)
  | [] => none
  | h :: hs =>
    if prefixAt pat (h :: hs) then some ((h :: hs).drop pat.length)
    else afterFirstAux pat hs

/-- String version of afterFirstAux. -/
def afterFirst (hay pat : String) : Option String :=
  (afterFirstAux pat.data hay.data).map String.mk

/-- Python or-chain over two optional strings with a final default:
a or b or dflt under string truthiness. -/
def orElseStr (a b : Option String) (dflt : String) : String :=
  if pyTruthy a then a.getD ""
  else if pyTruthy b then b.getD ""
  else dflt

/-! ## Transport client (src/lib/api_client.py)

A parsed JSON response dictionary is modelled by Resp; only the keys the
client actually reads are tracked, with none meaning the key is absent.
The payload field is an opaque stand-in for all other keys, so distinct
server responses stay distinguishable. -/

/-- A response dictionary as _make_request / generate see it. -/
structure Resp where
  success : Option Bool := none
  error : Option String := none
  message : Option String := none
  large_file : Bool := false
  presigned_url : Option String := none
  step_file : Option String := none
  model_id : Option String := none
  payload : String := ""
deriving DecidableEq, Repr

/-- The failure dictionaries the client builds itself. -/
def Resp.failure (msg : String) : Resp := { success := some false, error := some msg }

/-- A parsed JSON body attached to an HTTP error response (the fields that
error_data.update(error_response) can override). -/
structure JsonBody where
  success : Option Bool := none
  error : Option String := none
  payload : String := ""
deriving DecidableEq, Repr

/-- What the network did during one urlopen attempt inside the try block of
_make_single_request. -/
inductive SingleEvent where
  /-- 2xx with a body; the parsed dictionary (a body that fails to parse is
  represented by a Resp with no success/error fields and the raw text as
  payload, mirroring the raw-fallback dictionary). -/
  | httpOk (body : Resp)
  /-- 2xx with an empty body: the client fabricates a success dictionary. -/
  | httpOkEmpty
  /-- urllib.error.HTTPError with status code, reason, optional Location
  header and optional parsed JSON error body. -/
  | httpError (code : Nat) (reason : String) (location : Option String)
      (body : Option JsonBody)
  /-- urllib.error.URLError (connection refused, DNS failure, ...). -/
  | urlError (msg : String)
  /-- json.JSONDecodeError reaching the dedicated except handler.  The
  handler exists in the source but is unreachable: the 2xx body parse
  catches every exception inline and yields the raw dictionary (an
  httpOk event), and the error-body parse has its own bare except. -/
  | jsonDecodeError (msg : String)
  /-- any other exception raised inside the try block (e.g. a timeout). -/
  | otherExc (msg : String)
deriving DecidableEq, Repr

/-- One URL attempt as _make_request sees it: either an exception escapes
_make_single_request (only possible from the code before the urlopen try
block, e.g. json.dumps on an unserializable body), or the try block runs
and one of the SingleEvent outcomes happens. -/
inductive UrlAttempt where
  | preRaise (msg : String)
  | event (e : SingleEvent)
deriving DecidableEq, Repr

/-- The HTTP-error dictionary after error_data.update(error_response): the
base dictionary with success False and the HTTP status text, overridden by
whatever fields the parsed error body carries. -/
def mergeErrBody (base : String) : Option JsonBody → Resp
  | none => { success := some false, error := some base }
  | some b =>
    { success := match b.success with | some v => some v | none => some false,
      error := match b.error with | some v => some v | none => some base,
      payload := b.payload }

/-- The dictionary _make_single_request returns for a given network event,
following its except handlers line by line. -/
def respOfEvent : SingleEvent → Resp
  | .httpOk body => body
  | .httpOkEmpty => { success := some true }
  | .httpError code reason location body =>
    if code == 413 && pyTruthy location then
      { success := some true, large_file := true, presigned_url := location }
    else
      mergeErrBody (s!"HTTP {code}: {reason}") body
  | .urlError msg => Resp.failure ("Network error: " ++ msg)
  | .jsonDecodeError msg => Resp.failure ("Invalid JSON response: " ++ msg)
  | .otherExc msg => Resp.failure ("Request failed: " ++ msg)

/-- _make_single_request: raises only when the attempt raises before the
urlopen try block, otherwise returns a dictionary. -/
def make_single_request : UrlAttempt → Except String Resp
  | .preRaise msg => .error msg
  | .event e => .ok (respOfEvent e)

/-- The transient/server-side failure tokens _make_request retries on. -/
def transientTokens : List String :=
  ["http 5", " 5xx", "bad gateway", "service unavailable", "gateway timeout",
   "502", "503", "504"]

/-- Whether the lowercased error text matches a transient token. -/
def isTransientText (errorText : String) : Bool :=
  transientTokens.any (fun tok => strHas errorText tok)

/-- The transient check _make_request applies to a failure dictionary:
str(result.get(error, empty)).lower() then the token scan. -/
def isTransientError (r : Resp) : Bool :=
  isTransientText (lowerStr (r.error.getD ""))

/-- The value held in last_error at the end of the URL loop: either a
caught exception or a failure dictionary.  URLError never lands here
because _make_single_request catches it internally. -/
inductive LastErr where
  | exc (msg : String)
  | dict (r : Resp)
deriving DecidableEq, Repr

/-- The tail of _make_request after the loop exhausts every URL. -/
def finalizeLast : Option LastErr → Resp
  | some (.dict r) => r
  | some (.exc msg) => Resp.failure ("Request failed: " ++ msg)
  | none => Resp.failure "Request failed: None"

/-- The URL loop of _make_request: attempts holds one UrlAttempt per entry
of urls_to_try, in order. -/
def make_request_aux : List UrlAttempt → Option LastErr → Resp
  | [], last => finalizeLast last
  | a :: rest, _ =>
    match make_single_request a with
    | .error msg => make_request_aux rest (some (.exc msg))
    | .ok r =>
      if r.success == some false && !rest.isEmpty && isTransientError r then
        make_request_aux rest (some (.dict r))
      else r

/-- _make_request over the ordered URL list. -/
def make_request (attempts : List UrlAttempt) : Resp :=
  make_request_aux attempts none

/-- Outcome of _download_step_file: the base64 text on success, or none
when any exception occurred (the function logs and returns None). -/
abbrev DownloadOutcome := Option String

/-- Result of one call to SpaceAPIClient.generate: the prompt string that
was sent in the request body (none when no HTTP request was made at all)
and the returned dictionary. -/
structure GenCall where
  sentPrompt : Option String
  result : Resp
deriving DecidableEq, Repr

/-- The large-file post-processing shared by generate/iterate: when the
response carries large_file, download from the presigned URL and either
attach the data or turn the result into a failure. -/
def handleLargeFile (r : Resp) (download : DownloadOutcome) : Resp :=
  if r.large_file then
    match download with
    | some d =>
      if d != "" then { r with step_file := some d }
      else { r with success := some false, error := some "Failed to download STEP file" }
    | none => { r with success := some false, error := some "Failed to download STEP file" }
  else r

/-- SpaceAPIClient.generate.  The network behaviour is supplied as the
attempts list consumed by make_request and the download outcome used if
the response is a large-file redirect. -/
def generate (prompt : String) (attempts : List UrlAttempt)
    (download : DownloadOutcome) : GenCall :=
  if prompt == "" || pyStrip prompt == "" then
    ⟨none, Resp.failure "Empty prompt provided"⟩
  else
    ⟨some (pyStrip prompt), handleLargeFile (make_request attempts) download⟩

/-! ## Error-message sanitizer (src/CADAgent.py, make_error_user_friendly) -/

/-- make_error_user_friendly, branch for branch.  The exception detail text
is part of the input string, so nothing is abstracted. -/
def make_error_user_friendly (error_message : String) : String :=
  if error_message == "" then "An error occurred. Please try again."
  else
    let el := lowerStr error_message
    if strHas el "api key onboarding failed" then
      if strHas el "connection refused" || strHas el "network error" then
        "Unable to connect to CADAgent servers. Please check your internet connection and try again."
      else if strHas el "unauthorized" || strHas el "401" then
        "API key is invalid. Please check your Anthropic API key at https://console.anthropic.com/account/keys"
      else if strHas el "forbidden" || strHas el "403" then
        "API key access denied. Please verify your Anthropic API key has sufficient permissions."
      else
        "API key validation failed. Please verify your Anthropic API key at https://console.anthropic.com/account/keys"
    else if strHas el "connection refused" || strHas el "network error" then
      "Unable to connect to CADAgent servers. Please check your internet connection and try again."
    else if strHas el "rate limit" || strHas el "429" then
      "API rate limit exceeded. Please wait a moment and try again."
    else if strHas el "500" || strHas el "server error" then
      "Server temporarily unavailable. Please try again in a few moments."
    else if strHas el "timeout" then
      "Request timed out. Please try again with a simpler design or check your connection."
    else if strHas el "error:" then
      match afterFirst error_message "Error:" with
      | some rest => "Error: " ++ pyStrip rest
      | none => error_message
    else error_message

/-! ## Credential cache (handle_get_cached_api_key / handle_clear_cached_api_key)

The four tiers are the module global _cached_api_key (memory), the Fusion
design attribute reached through _fusion_utils (durable), the api_key
attribute of the live _api_client (client-held), and the ANTHROPIC_API_KEY
process environment variable. -/

/-- The credential state visible to the two handlers. -/
structure KeyState where
  /-- the _cached_api_key module global (none = None). -/
  memory : Option String := none
  /-- value of the CADAgent/anthropic_api_key design attribute. -/
  durable : Option String := none
  /-- whether an active design is available to fusion_utils. -/
  designPresent : Bool := true
  /-- whether the _fusion_utils module global is non-None. -/
  utilsPresent : Bool := true
  /-- whether the _api_client module global is non-None. -/
  clientPresent : Bool := true
  /-- the api_key attribute held by the client object. -/
  clientKey : Option String := none
  /-- os.environ.get(ANTHROPIC_API_KEY, empty) — empty means unset. -/
  env : String := ""
deriving DecidableEq, Repr

/-- SpaceFusionUtils.retrieve_api_key: the design attribute value, or None
without an active design. -/
def fusionRetrieve (st : KeyState) : Option String :=
  if st.designPresent then st.durable else none

/-- The dictionary handle_get_cached_api_key returns. -/
structure GetKeyResult where
  success : Bool
  api_key : Option String := none
  has_cached_key : Bool := false
  source : String := "none"
deriving DecidableEq, Repr

/-- handle_get_cached_api_key: fixed tier order memory, fusion attributes,
api client, environment; the first truthy hit is written through into the
memory tier. -/
def handle_get_cached_api_key (st : KeyState) : KeyState × GetKeyResult :=
  if pyTruthy st.memory then
    (st, ⟨true, st.memory, true, "memory"⟩)
  else if st.utilsPresent && pyTruthy (fusionRetrieve st) then
    ({ st with memory := fusionRetrieve st },
     ⟨true, fusionRetrieve st, true, "fusion_attributes"⟩)
  else if st.clientPresent && pyTruthy st.clientKey then
    ({ st with memory := st.clientKey }, ⟨true, st.clientKey, true, "api_client"⟩)
  else if st.env != "" then
    ({ st with memory := some st.env }, ⟨true, some st.env, true, "environment"⟩)
  else
    (st, ⟨true, none, false, "none"⟩)

/-- The dictionary handle_clear_cached_api_key returns. -/
structure ClearKeyResult where
  success : Bool
  cleared_sources : List String
  env_key_present : Bool
deriving DecidableEq, Repr

/-- SpaceFusionUtils.clear_api_key: deletes the design attribute and
returns True; with no active design it also returns True (nothing to
clear).  It returns False only when the Fusion API itself faults, which
the embedding does not model. -/
def fusionClear (st : KeyState) : KeyState × Bool :=
  if st.designPresent then ({ st with durable := none }, true) else (st, true)

/-- handle_clear_cached_api_key: clears memory (when set), the design
attribute and the client-held key, never the environment variable, and
reports whether an environment value remains active. -/
def handle_clear_cached_api_key (st : KeyState) : KeyState × ClearKeyResult :=
  let (st1, cleared1) :=
    if pyTruthy st.memory then ({ st with memory := none }, ["memory"]) else (st, [])
  let (st2, cleared2) :=
    if st1.utilsPresent then
      let (st2, ok) := fusionClear st1
      (st2, if ok then cleared1 ++ ["fusion_attributes"] else cleared1)
    else (st1, cleared1)
  let (st3, cleared3) :=
    if st2.clientPresent then
      ({ st2 with clientKey := none }, cleared2 ++ ["api_client"])
    else (st2, cleared2)
  (st3, ⟨true, cleared3, st3.env != ""⟩)

/-! ## STEP import finalization (src/CADAgent.py, handle_step_import)

The design is modelled by the root component state Fusion exposes: its
bodies, its child occurrences, and the list of artifacts imported into it.
Calls into the CAD backend are recorded in an event trace. -/

/-- The mutable design state the handler touches. -/
structure Design where
  bodies : List String := []
  occurrences : List String := []
  imported : List String := []
deriving DecidableEq, Repr

/-- The CAD backend calls the handler can issue. -/
inductive CadCall where
  | clearGeometry
  | importArtifact
deriving DecidableEq, Repr

/-- What the Fusion environment does during one handle_step_import run:
which fallible steps succeed, and the partial state a failed clear leaves
behind (the loop is best-effort, an exception can stop it midway). -/
structure ImportEnv where
  decodeOk : Bool := true
  saveOk : Bool := true
  designPresent : Bool := true
  clearOk : Bool := true
  leftoverBodies : List String := []
  leftoverOccs : List String := []
  importOk : Bool := true
deriving DecidableEq, Repr

/-- The request payload of step_import_from_background / import_step_file. -/
structure ImportReq where
  step_file_data : String := ""
  model_id : Option String := none
  is_iteration : Bool := false
deriving DecidableEq, Repr

/-- The dictionary handle_step_import returns.  Exception detail strings
are abstracted to their fixed prefixes. -/
structure StepResult where
  success : Bool
  error : Option String := none
  model_id : Option String := none
  is_iteration : Bool := false
  model_replaced : Bool := false
deriving DecidableEq, Repr

/-- The clear-before-import phase of handle_step_import: iterations clear
all bodies and child occurrences of the root component (best-effort: a
failing clear may leave a partial state behind but never stops the run);
first-time generations do not touch the geometry. -/
def clearPhase (req : ImportReq) (env : ImportEnv) (d : Design) : Design :=
  if req.is_iteration then
    if env.clearOk then { d with bodies := [], occurrences := [] }
    else { d with bodies := env.leftoverBodies, occurrences := env.leftoverOccs }
  else d

/-- The CAD backend calls issued by the clear phase. -/
def clearCalls (req : ImportReq) : List CadCall :=
  if req.is_iteration then [CadCall.clearGeometry] else []

/-- handle_step_import: validate, decode, persist to scratch, clear prior
geometry when and only when is_iteration, then import.  A clear failure is
logged and the import proceeds anyway. -/
def handle_step_import (req : ImportReq) (env : ImportEnv) (d : Design) :
    StepResult × Design × List CadCall :=
  if req.step_file_data == "" then
    ({ success := false, error := some "No STEP file data provided" }, d, [])
  else if !env.decodeOk then
    ({ success := false, error := some "Failed to decode STEP data" }, d, [])
  else if !env.saveOk then
    ({ success := false, error := some "Failed to save temporary STEP file" }, d, [])
  else if !env.designPresent then
    ({ success := false, error := some "No active design found in Fusion 360" }, d, [])
  else if env.importOk then
    ({ success := true, model_id := req.model_id, is_iteration := req.is_iteration,
       model_replaced := req.is_iteration },
     { clearPhase req env d with
         imported := (clearPhase req env d).imported ++ [req.model_id.getD "imported_model"] },
     clearCalls req ++ [CadCall.importArtifact])
  else
    ({ success := false, error := some "Import failed" }, clearPhase req env d,
     clearCalls req ++ [CadCall.importArtifact])

/-! ## Dispatcher and background tasks (src/CADAgent.py, HTMLEventHandler.notify)

Signals are the one-way sendInfoToHTML messages; the palette is modelled
as live, so every delivery succeeds.  A background task run is modelled as
the list of Signals eventually emitted for that operation, with the
UI relay of step_ready_for_import back into the dispatcher (as the
step_import_from_background action) inlined. -/

/-- A Signal sent to the HTML UI, keeping the fields the claims mention. -/
structure Sig where
  type : String
  success : Option Bool := none
  message : Option String := none
  model_id : Option String := none
  is_iteration : Option Bool := none
  step_file_data : Option String := none
deriving DecidableEq, Repr

/-- Terminal signal types: the completion and error notifications. -/
def isTerminal (s : Sig) : Bool :=
  s.type == "generation_complete" || s.type == "iteration_complete" || s.type == "error"

/-- An error Signal carrying a message, as signal_html_from_background
sends it. -/
def mkErrSig (msg : String) : Sig :=
  { type := "error", success := some false, message := some msg }

/-- The step_ready_for_import Signal a background task emits when an
artifact is ready for finalization. -/
def mkReadySig (stepData : String) (modelId : Option String) (isIter : Bool) : Sig :=
  { type := "step_ready_for_import", model_id := modelId,
    is_iteration := some isIter, step_file_data := some stepData }

/-- The dispatcher branch for the relayed step_import_from_background
action: run handle_step_import on the privileged context, then signal
generation_complete on success or error on failure. -/
def relay_step_import (req : ImportReq) (env : ImportEnv) (d : Design) :
    Sig × Design :=
  if (handle_step_import req env d).1.success then
    ({ type := "generation_complete", success := some true,
       message := some "Model generated and imported successfully",
       model_id := (handle_step_import req env d).1.model_id,
       is_iteration := some (handle_step_import req env d).1.is_iteration },
     (handle_step_import req env d).2.1)
  else
    ({ type := "error", success := some false,
       message := (handle_step_import req env d).1.error },
     (handle_step_import req env d).2.1)

/-- What the API call inside a background task did: crash is an exception
reaching the outer handler of the task (before any signal was sent),
clientRaised an exception thrown by the client call and converted to a
failure dictionary, returns a dictionary from the transport client. -/
inductive ApiOutcome where
  | crash (msg : String)
  | clientRaised (msg : String)
  | returns (r : Resp)
deriving DecidableEq, Repr

/-- generate_in_background, with the UI relay of step_ready_for_import
inlined: the list of Signals eventually emitted for this operation.
promptOk and keyOk say whether the prompt was truthy and whether any of
the key sources (UI, cache tiers, environment, settings) produced a key. -/
def generate_in_background (promptOk keyOk : Bool) (o : ApiOutcome)
    (download : Option String) (ienv : ImportEnv) (d : Design) : List Sig :=
  match o with
  | .crash msg => [mkErrSig (make_error_user_friendly ("Generation error: " ++ msg))]
  | .clientRaised msg =>
    if !promptOk || !keyOk then [mkErrSig "Missing prompt or API key"]
    else
      [mkErrSig (make_error_user_friendly
        (orElseStr (some ("Generation failed: " ++ msg)) none "Generation failed"))]
  | .returns r =>
    if !promptOk || !keyOk then [mkErrSig "Missing prompt or API key"]
    else if pyTruthyB r.success && pyTruthy r.step_file then
      let req : ImportReq := ⟨r.step_file.getD "", r.model_id, false⟩
      [mkReadySig req.step_file_data r.model_id false, (relay_step_import req ienv d).1]
    else if r.large_file && pyTruthy r.presigned_url then
      match download with
      | some data =>
        let req : ImportReq := ⟨data, r.model_id, false⟩
        [mkReadySig data r.model_id false, (relay_step_import req ienv d).1]
      | none => [mkErrSig "Download failed"]
    else
      [mkErrSig (make_error_user_friendly (orElseStr r.error r.message "Generation failed"))]

/-- iterate_in_background, with the UI relay inlined, analogous to
generate_in_background but with is_iteration set on the relayed request. -/
def iterate_in_background (modelOk promptOk keyOk : Bool) (o : ApiOutcome)
    (download : Option String) (ienv : ImportEnv) (d : Design) : List Sig :=
  match o with
  | .crash msg => [mkErrSig (make_error_user_friendly ("Iteration error: " ++ msg))]
  | .clientRaised msg =>
    if !modelOk || !promptOk || !keyOk then
      [mkErrSig "Missing model_id, prompt, or API key"]
    else
      [mkErrSig (make_error_user_friendly
        (orElseStr (some ("Iteration failed: " ++ msg)) none "Iteration failed"))]
  | .returns r =>
    if !modelOk || !promptOk || !keyOk then
      [mkErrSig "Missing model_id, prompt, or API key"]
    else if pyTruthyB r.success && pyTruthy r.step_file then
      let req : ImportReq := ⟨r.step_file.getD "", r.model_id, true⟩
      [mkReadySig req.step_file_data r.model_id true, (relay_step_import req ienv d).1]
    else if r.large_file && pyTruthy r.presigned_url then
      match download with
      | some data =>
        let req : ImportReq := ⟨data, r.model_id, true⟩
        [mkReadySig data r.model_id true, (relay_step_import req ienv d).1]
      | none => [mkErrSig "Download failed"]
    else
      [mkErrSig (make_error_user_friendly (orElseStr r.error r.message "Iteration failed"))]

/-- The synchronous response value the dispatcher writes to returnData. -/
structure RespMsg where
  success : Bool := true
  processing : Bool := false
  error : Option String := none
  payload : String := ""
deriving DecidableEq, Repr

/-- returnData content: the literal pong string or a JSON dictionary. -/
inductive RetData where
  | raw (s : String)
  | json (r : RespMsg)
deriving DecidableEq, Repr

/-- The environment one notify call runs in: what the selected synchronous
handler did (ok result or raised exception caught at the top level), and
the inputs of the relayed import branch. -/
structure DispatchEnv where
  handlerOutcome : Except String RespMsg := .ok {}
  importReq : ImportReq := {}
  importEnv : ImportEnv := {}
  design : Design := {}
deriving Repr

/-- HTMLEventHandler.notify as a response function: the returnData value
assigned for each action name.  none would mean no response was assigned;
every branch of the source assigns one.  The two asynchronous actions
answer before their background thread is spawned, so their response does
not depend on the environment. -/
def notify (action : String) (env : DispatchEnv) : Option RetData :=
  if action == "ping" then some (.raw "pong")
  else if action == "html_ready" then
    some (.json { success := true, payload := "HTML_READY" })
  else if action == "step_import_from_background" then
    some (.json { success := (handle_step_import env.importReq env.importEnv env.design).1.success,
                  error := (handle_step_import env.importReq env.importEnv env.design).1.error })
  else if action == "generate_model" then
    some (.json { success := true, processing := true, payload := "generation started" })
  else if action == "iterate_model" then
    some (.json { success := true, processing := true, payload := "iteration started" })
  else if (["import_step_file", "export_step_file", "get_design_info",
            "validate_api_key", "store_api_key", "get_cached_api_key",
            "clear_cached_api_key", "show_notification", "get_parameters",
            "update_parameters"]).contains action then
    match env.handlerOutcome with
    | .ok r => some (.json r)
    | .error msg =>
      some (.json { success := false, error := some ("Handler error: " ++ msg) })
  else
    some (.json { success := false, error := some ("Unknown action: " ++ action) })

/-! ## Auxiliary definitions for the claims -/

/-- Number of terminal Signals in an emission trace. -/
def countTerminal (sigs : List Sig) : Nat := (sigs.filter isTerminal).length

/-- A succeeding fallback response used in the URL-fallback scenarios. -/
def fallbackOk : Resp := { success := some true, payload := "fallback" }

/-- Whether an HTTP error body leaves success False (its success field is
absent or False). -/
def errBodyOk : Option JsonBody → Bool
  | none => true
  | some b => b.success != some true

/-- The failure modes of one URL attempt: everything except a 2xx response
and the 413-with-Location redirect convention; an HTTP error body may not
override success to True. -/
def isFailureAttempt : UrlAttempt → Bool
  | .preRaise _ => true
  | .event (.urlError _) => true
  | .event (.jsonDecodeError _) => true
  | .event (.otherExc _) => true
  | .event (.httpError code _ location body) =>
    !(code == 413 && pyTruthy location) && errBodyOk body
  | .event (.httpOk _) => false
  | .event .httpOkEmpty => false

/-- The uniform failure shape: success is literally False and an error
message is present. -/
def failShape (r : Resp) : Prop := r.success = some false ∧ r.error.isSome = true

/-- Invariant satisfied by the last_error accumulator of the URL loop. -/
def goodLast : Option LastErr → List UrlAttempt → Prop
  | none, attempts => attempts ≠ []
  | some (.exc _), _ => True
  | some (.dict r), _ => failShape r

/-- Credential lookup as the specification words it: the tiers in the fixed
order memory, durable store, client-held, environment, and the first truthy
hit wins.  Stated independently of the handler so the handler can be proved
to refine it. -/
def specCredentialLookup (st : KeyState) : Option String :=
  (([st.memory,
     if st.utilsPresent then fusionRetrieve st else none,
     if st.clientPresent then st.clientKey else none,
     some st.env]).find? pyTruthy).join

/-! ## Helper lemmas -/

/-- A well-behaved error body merged over the base HTTP failure dictionary
keeps the failure shape. -/
theorem mergeErrBody_failShape (base : String) (body : Option JsonBody)
    (hb : errBodyOk body = true) : failShape (mergeErrBody base body) := by
  cases body with
  | none => exact ⟨rfl, rfl⟩
  | some b =>
    rw [errBodyOk, bne_iff_ne] at hb
    constructor
    · cases hs : b.success with
      | none => simp [mergeErrBody, hs]
      | some v =>
        cases v with
        | false => simp [mergeErrBody, hs]
        | true => exact absurd hs hb
    · cases he : b.error with
      | none => simp [mergeErrBody, he]
      | some v => simp [mergeErrBody, he]

/-- Failure-mode network events produce a dictionary with success False and
an error message present. -/
theorem respOfEvent_failShape (e : SingleEvent)
    (h : isFailureAttempt (.event e) = true) : failShape (respOfEvent e) := by
  cases e with
  | httpOk body => simp [isFailureAttempt] at h
  | httpOkEmpty => simp [isFailureAttempt] at h
  | httpError code reason location body =>
    simp only [isFailureAttempt, Bool.and_eq_true, Bool.not_eq_true'] at h
    obtain ⟨h1, h2⟩ := h
    simp only [respOfEvent, h1, Bool.false_eq_true, if_false]
    exact mergeErrBody_failShape _ body h2
  | urlError msg => exact ⟨rfl, rfl⟩
  | jsonDecodeError msg => exact ⟨rfl, rfl⟩
  | otherExc msg => exact ⟨rfl, rfl⟩

/-- The URL loop preserves the failure shape when every attempt fails. -/
theorem make_request_aux_failShape :
    ∀ (attempts : List UrlAttempt) (last : Option LastErr),
      (∀ a ∈ attempts, isFailureAttempt a = true) →
      goodLast last attempts →
      failShape (make_request_aux attempts last) := by
  intro attempts
  induction attempts with
  | nil =>
    intro last _ hg
    cases last with
    | none => exact absurd rfl hg
    | some l =>
      cases l with
      | exc msg => exact ⟨rfl, rfl⟩
      | dict r => exact hg
  | cons a rest ih =>
    intro last hall hg
    have ha : isFailureAttempt a = true := hall a (List.mem_cons_self a rest)
    have hrest : ∀ x ∈ rest, isFailureAttempt x = true :=
      fun x hx => hall x (List.mem_cons_of_mem a hx)
    cases a with
    | preRaise msg =>
      rw [make_request_aux]
      exact ih (some (.exc msg)) hrest trivial
    | event e =>
      have hf : failShape (respOfEvent e) := respOfEvent_failShape e ha
      rw [make_request_aux]
      cases hc : ((respOfEvent e).success == some false && !rest.isEmpty &&
          isTransientError (respOfEvent e)) with
      | false => simpa [make_single_request, hc] using hf
      | true =>
        simp only [make_single_request, hc, if_true]
        exact ih (some (.dict (respOfEvent e))) hrest hf

/-! ## Claim theorems -/

/-- C5: an application-level failure response with fallback URLs remaining
is retried on the next URL exactly when its error text matches a
transient/server-side pattern; concretely, a primary answering HTTP 503
falls through to a succeeding fallback whose result is returned, while a
primary answering a definitive failure (Invalid prompt) is returned
immediately without trying the fallback. -/
theorem claim5_transient_fallback :
    make_request [.event (.httpOk (Resp.failure "HTTP 503: Service Unavailable")),
                  .event (.httpOk fallbackOk)] = fallbackOk ∧
    make_request [.event (.httpOk (Resp.failure "Invalid prompt")),
                  .event (.httpOk fallbackOk)] = Resp.failure "Invalid prompt" ∧
    ∀ (r : Resp) (rest : List UrlAttempt), r.success = some false → rest ≠ [] →
      make_request (.event (.httpOk r) :: rest)
        = if isTransientError r then make_request_aux rest (some (.dict r)) else r := by
  refine ⟨by decide, by decide, ?_⟩
  intro r rest h1 h2
  cases rest with
  | nil => exact absurd rfl h2
  | cons a l =>
    rw [make_request, make_request_aux]
    simp only [make_single_request, respOfEvent, h1]
    simp

/-- Witness for C5 at the concrete 503 scenario. -/
theorem claim5_transient_fallback_witness :
    (Resp.failure "HTTP 503: Service Unavailable").success = some false ∧
    (([.event (.httpOk fallbackOk)] : List UrlAttempt) ≠ []) ∧
    make_request [.event (.httpOk (Resp.failure "HTTP 503: Service Unavailable")),
                  .event (.httpOk fallbackOk)]
      = if isTransientError (Resp.failure "HTTP 503: Service Unavailable") then
          make_request_aux [.event (.httpOk fallbackOk)]
            (some (.dict (Resp.failure "HTTP 503: Service Unavailable")))
        else Resp.failure "HTTP 503: Service Unavailable" :=
  ⟨rfl, by decide,
   claim5_transient_fallback.2.2 (Resp.failure "HTTP 503: Service Unavailable")
     [.event (.httpOk fallbackOk)] rfl (by decide)⟩

/-- C6: contrary to the claim, a network-level exception (connection
refused) on the primary URL does NOT proceed to the next URL: URLError is
caught inside _make_single_request and converted into a Network error
failure dictionary whose text matches no transient token, so _make_request
returns it immediately even though a succeeding fallback remains.  The
URLError branch in the tail of _make_request is unreachable. -/
theorem claim6_network_error_no_fallback :
    make_request [.event (.urlError "[Errno 111] Connection refused"),
                  .event (.httpOk fallbackOk)]
      = Resp.failure "Network error: [Errno 111] Connection refused" ∧
    make_request [.event (.urlError "[Errno 111] Connection refused"),
                  .event (.httpOk fallbackOk)] ≠ fallbackOk := by
  constructor
  · decide
  · decide

/-- C7 counterexample: two listed failure modes do not yield the claimed
shape.  A 2xx response whose body is malformed JSON is returned as the
raw-text dictionary with neither a success nor an error key (the dedicated
JSONDecodeError handler is unreachable), and a non-2xx response whose
parsed error body carries success true has the failure shape overridden by
error_data.update, so request() returns success true there. -/
theorem claim7_failure_shape_counterexample :
    (make_request [.event (.httpOk { payload := "<html>bad gateway page" })]
       = { payload := "<html>bad gateway page" } ∧
     (make_request [.event (.httpOk { payload := "<html>bad gateway page" })]).success
       ≠ some false ∧
     (make_request [.event (.httpOk { payload := "<html>bad gateway page" })]).error.isSome
       = false) ∧
    (make_request [.event (.httpError 500 "Internal Server Error" none
        (some { success := some true }))]).success = some true := by
  refine ⟨⟨by decide, by decide, by decide⟩, by decide⟩

/-- C7 amended: request() never propagates a fault (make_request is total:
every except handler is a returned dictionary), and the returned value has
the shape success False with an error message whenever every URL attempt
is a failure mode — network exception, timeout, an exception escaping the
request construction such as an unserializable body, or a non-2xx status
without the 413 redirect convention whose error body does not itself set
success to true.  A 2xx response whose body the client cannot parse is
instead passed through as the raw-text dictionary (no success or error
key): any 2xx dictionary whose success field is not literally False is
returned to the caller unchanged. -/
theorem claim7_never_throws :
    (∀ attempts, attempts ≠ [] → (∀ a ∈ attempts, isFailureAttempt a = true) →
       (make_request attempts).success = some false ∧
       (make_request attempts).error.isSome = true) ∧
    (∀ (r : Resp) (rest : List UrlAttempt), r.success ≠ some false →
       make_request (.event (.httpOk r) :: rest) = r) ∧
    (∀ raw : String,
       make_request [.event (.httpOk { payload := raw })] = { payload := raw }) := by
  refine ⟨?_, ?_, ?_⟩
  · intro attempts h1 h2
    exact make_request_aux_failShape attempts none h2 h1
  · intro r rest h
    have hb : (r.success == some false) = false := beq_eq_false_iff_ne.mpr h
    rw [make_request, make_request_aux]
    simp [make_single_request, respOfEvent, hb]
  · intro raw
    rfl

/-- Witness for C7 on a DNS-failure attempt and on a raw 2xx body. -/
theorem claim7_never_throws_witness :
    (([.event (.urlError "Name or service not known")] : List UrlAttempt) ≠ []) ∧
    (∀ a ∈ ([.event (.urlError "Name or service not known")] : List UrlAttempt),
      isFailureAttempt a = true) ∧
    ((make_request [.event (.urlError "Name or service not known")]).success = some false ∧
     (make_request [.event (.urlError "Name or service not known")]).error.isSome = true) ∧
    (({ payload := "<html>" } : Resp).success ≠ some false ∧
     make_request [.event (.httpOk { payload := "<html>" }), .event (.httpOk fallbackOk)]
       = { payload := "<html>" }) :=
  ⟨by decide, by decide,
   claim7_never_throws.1 _ (by decide) (by decide),
   ⟨by decide,
    claim7_never_throws.2.1 { payload := "<html>" } [.event (.httpOk fallbackOk)]
      (by decide)⟩⟩

/-- C8 counterexample: the sanitizer returns the raw string 401
Unauthorized unchanged (it contains no API-key guidance), because the
401/unauthorized branch only fires inside the api key onboarding failed
branch; and a raw error containing 429 can be captured by the earlier
network branch instead of the rate-limit branch. -/
theorem claim8_sanitizer_counterexample :
    make_error_user_friendly "401 Unauthorized" = "401 Unauthorized" ∧
    strHas (make_error_user_friendly "401 Unauthorized") "API key" = false ∧
    make_error_user_friendly "Network error: 429"
      = "Unable to connect to CADAgent servers. Please check your internet connection and try again." := by
  refine ⟨by decide, by decide, by decide⟩

/-- C8 amended: the API-key guidance is produced for 401/unauthorized
errors only when the raw text also mentions api key onboarding failed
(bare 401 Unauthorized passes through unchanged), and a raw error
containing rate limit or 429 maps to the wait-and-retry message provided
none of the earlier patterns (api key onboarding failed, connection
refused, network error) occurs in it. -/
theorem claim8_sanitizer_amended :
    make_error_user_friendly "API key onboarding failed: 401 Unauthorized"
      = "API key is invalid. Please check your Anthropic API key at https://console.anthropic.com/account/keys" ∧
    make_error_user_friendly "401 Unauthorized" = "401 Unauthorized" ∧
    ∀ s : String, s ≠ "" →
      (strHas (lowerStr s) "rate limit" || strHas (lowerStr s) "429") = true →
      strHas (lowerStr s) "api key onboarding failed" = false →
      strHas (lowerStr s) "connection refused" = false →
      strHas (lowerStr s) "network error" = false →
      make_error_user_friendly s = "API rate limit exceeded. Please wait a moment and try again." := by
  refine ⟨by decide, by decide, ?_⟩
  intro s h0 h1 h2 h3 h4
  have hs : (s == "") = false := by
    simpa using h0
  rw [make_error_user_friendly]
  simp only [hs, Bool.false_eq_true, if_false, h1, h2, h3, h4, Bool.or_self,
    Bool.false_or, Bool.or_false, if_true]

/-- Witness for C8 at a concrete rate-limit error text. -/
theorem claim8_sanitizer_amended_witness :
    ("HTTP 429: Too Many Requests" ≠ "") ∧
    ((strHas (lowerStr "HTTP 429: Too Many Requests") "rate limit" ||
      strHas (lowerStr "HTTP 429: Too Many Requests") "429") = true) ∧
    strHas (lowerStr "HTTP 429: Too Many Requests") "api key onboarding failed" = false ∧
    strHas (lowerStr "HTTP 429: Too Many Requests") "connection refused" = false ∧
    strHas (lowerStr "HTTP 429: Too Many Requests") "network error" = false ∧
    make_error_user_friendly "HTTP 429: Too Many Requests"
      = "API rate limit exceeded. Please wait a moment and try again." :=
  ⟨by decide, by decide, by decide, by decide, by decide,
   claim8_sanitizer_amended.2.2 "HTTP 429: Too Many Requests"
     (by decide) (by decide) (by decide) (by decide) (by decide)⟩

/-- C10: generate on an empty or whitespace-only prompt returns the
Empty prompt provided failure without sending any HTTP request, and on
any other prompt it sends the whitespace-stripped prompt to the backend. -/
theorem claim10_generate_empty_prompt :
    (∀ (prompt : String) (attempts : List UrlAttempt) (download : Option String),
       pyStrip prompt = "" →
       generate prompt attempts download = ⟨none, Resp.failure "Empty prompt provided"⟩) ∧
    (∀ (prompt : String) (attempts : List UrlAttempt) (download : Option String),
       pyStrip prompt ≠ "" →
       (generate prompt attempts download).sentPrompt = some (pyStrip prompt)) := by
  constructor
  · intro prompt attempts download h
    rw [generate]
    simp [h]
  · intro prompt attempts download h
    have hp : (prompt == "") = false := by
      rcases eq_or_ne prompt "" with he | he
      · exact absurd (he ▸ (by decide : pyStrip "" = "")) h
      · simpa using he
    have hps : (pyStrip prompt == "") = false := by
      simpa using h
    rw [generate]
    simp [hp, hps]

/-- Witness for C10 on a whitespace-only and on a padded prompt. -/
theorem claim10_generate_empty_prompt_witness :
    (pyStrip "   " = "" ∧
      generate "   " [] none = ⟨none, Resp.failure "Empty prompt provided"⟩) ∧
    (pyStrip "  a 5cm cube  " ≠ "" ∧
      (generate "  a 5cm cube  " [] none).sentPrompt = some (pyStrip "  a 5cm cube  ")) :=
  ⟨⟨by decide, claim10_generate_empty_prompt.1 "   " [] none (by decide)⟩,
   ⟨by decide, claim10_generate_empty_prompt.2 "  a 5cm cube  " [] none (by decide)⟩⟩

/-- The relayed finalization always emits a terminal Signal. -/
theorem relay_terminal (req : ImportReq) (env : ImportEnv) (d : Design) :
    isTerminal (relay_step_import req env d).1 = true := by
  by_cases h : (handle_step_import req env d).1.success = true
  · rw [relay_step_import, if_pos h]
    rfl
  · rw [relay_step_import, if_neg h]
    rfl

/-- Error Signals are terminal. -/
theorem isTerminal_mkErrSig (m : String) : isTerminal (mkErrSig m) = true := rfl

/-- The ready-for-finalization Signal is not terminal. -/
theorem isTerminal_mkReadySig (a : String) (b : Option String) (c : Bool) :
    isTerminal (mkReadySig a b c) = false := rfl

/-- A trace consisting of one error Signal has one terminal Signal. -/
theorem countTerminal_err (m : String) : countTerminal [mkErrSig m] = 1 := rfl

/-- A trace of one ready Signal followed by the relayed finalization Signal
has exactly one terminal Signal. -/
theorem countTerminal_ready_relay (a : String) (b : Option String) (c : Bool)
    (req : ImportReq) (env : ImportEnv) (d : Design) :
    countTerminal [mkReadySig a b c, (relay_step_import req env d).1] = 1 := by
  simp [countTerminal, List.filter_cons, isTerminal_mkReadySig,
    relay_terminal req env d]

/-- A successful finalization reports the is_iteration flag it was given. -/
theorem handle_step_import_success_fields (req : ImportReq) (env : ImportEnv)
    (d : Design) (h : (handle_step_import req env d).1.success = true) :
    (handle_step_import req env d).1.is_iteration = req.is_iteration := by
  rw [handle_step_import] at h ⊢
  split_ifs at h ⊢
  simp_all

/-- C1: for every asynchronous action, across every code path of its
background task (inline success relayed through finalization, large-file
success, inline failure, download failure, exception inside the task, and
missing inputs), the eventual Signal trace contains exactly one terminal
Signal. -/
theorem claim1_exactly_one_terminal :
    ∀ (promptOk keyOk modelOk : Bool) (o : ApiOutcome) (download : Option String)
      (ienv : ImportEnv) (d : Design),
      countTerminal (generate_in_background promptOk keyOk o download ienv d) = 1 ∧
      countTerminal (iterate_in_background modelOk promptOk keyOk o download ienv d) = 1 := by
  intro promptOk keyOk modelOk o download ienv d
  constructor
  · cases o with
    | crash msg => exact countTerminal_err _
    | clientRaised msg =>
      simp only [generate_in_background]
      split_ifs <;> exact countTerminal_err _
    | returns r =>
      simp only [generate_in_background]
      split_ifs
      · exact countTerminal_err _
      · exact countTerminal_ready_relay _ _ _ _ _ _
      · cases download with
        | some data => exact countTerminal_ready_relay _ _ _ _ _ _
        | none => exact countTerminal_err _
      · exact countTerminal_err _
  · cases o with
    | crash msg => exact countTerminal_err _
    | clientRaised msg =>
      simp only [iterate_in_background]
      split_ifs <;> exact countTerminal_err _
    | returns r =>
      simp only [iterate_in_background]
      split_ifs
      · exact countTerminal_err _
      · exact countTerminal_ready_relay _ _ _ _ _ _
      · cases download with
        | some data => exact countTerminal_ready_relay _ _ _ _ _ _
        | none => exact countTerminal_err _
      · exact countTerminal_err _

/-- C2 counterexample: a successful iterate_model run, relayed through the
step_import_from_background action, terminates with a generation_complete
Signal; no iteration_complete Signal is ever emitted on this path (the
closures that would send iteration_complete are defined but never called). -/
theorem claim2_iteration_signal_counterexample :
    (iterate_in_background true true true
        (.returns { success := some true, step_file := some "U1RFUA==",
                    model_id := some "m1" }) none {} {}).map Sig.type
      = ["step_ready_for_import", "generation_complete"] ∧
    "iteration_complete" ∉ (iterate_in_background true true true
        (.returns { success := some true, step_file := some "U1RFUA==",
                    model_id := some "m1" }) none {} {}).map Sig.type := by
  constructor
  · decide
  · decide

/-- C2 amended: for an iterate_model operation whose relayed finalization
succeeds, the terminal Signal has type generation_complete and carries
is_iteration true in its payload (not a Signal of type iteration_complete);
on finalization failure the terminal Signal has type error. -/
theorem claim2_relay_signal_type :
    ∀ (req : ImportReq) (env : ImportEnv) (d : Design),
      req.is_iteration = true →
      ((handle_step_import req env d).1.success = true →
         (relay_step_import req env d).1.type = "generation_complete" ∧
         (relay_step_import req env d).1.is_iteration = some true) ∧
      ((handle_step_import req env d).1.success = false →
         (relay_step_import req env d).1.type = "error") := by
  intro req env d hiter
  constructor
  · intro hs
    have hit := handle_step_import_success_fields req env d hs
    rw [relay_step_import]
    rw [hiter] at hit
    simp [hs, hit]
  · intro hs
    rw [relay_step_import]
    simp [hs]

/-- Witness for C2 at a concrete successful iteration finalization. -/
theorem claim2_relay_signal_type_witness :
    ({ step_file_data := "U1RFUA==", model_id := some "m1", is_iteration := true }
        : ImportReq).is_iteration = true ∧
    (handle_step_import
        { step_file_data := "U1RFUA==", model_id := some "m1", is_iteration := true }
        {} {}).1.success = true ∧
    ((relay_step_import
        { step_file_data := "U1RFUA==", model_id := some "m1", is_iteration := true }
        {} {}).1.type = "generation_complete" ∧
     (relay_step_import
        { step_file_data := "U1RFUA==", model_id := some "m1", is_iteration := true }
        {} {}).1.is_iteration = some true) :=
  ⟨rfl, by decide,
   (claim2_relay_signal_type
      { step_file_data := "U1RFUA==", model_id := some "m1", is_iteration := true }
      {} {} rfl).1 (by decide)⟩

/-- C3: every action request, including unknown action names and handler
exceptions, receives exactly one synchronous response, and for the two
asynchronous actions that response carries success true and processing
true regardless of the environment the background task will see. -/
theorem claim3_single_response :
    ∀ (action : String) (env : DispatchEnv),
      (notify action env).isSome = true ∧
      ((action = "generate_model" ∨ action = "iterate_model") →
        ∃ r, notify action env = some (.json r) ∧
          r.success = true ∧ r.processing = true) := by
  intro action env
  constructor
  · rw [notify]
    split_ifs <;> first
      | rfl
      | (cases env.handlerOutcome <;> rfl)
  · rintro (h | h) <;> subst h
    · exact ⟨{ success := true, processing := true, payload := "generation started" },
        rfl, rfl, rfl⟩
    · exact ⟨{ success := true, processing := true, payload := "iteration started" },
        rfl, rfl, rfl⟩

/-- Witness for C3 at the generate_model action with a defaulted
environment. -/
theorem claim3_single_response_witness :
    ("generate_model" = "generate_model" ∨ "generate_model" = "iterate_model") ∧
    (∃ r, notify "generate_model" {} = some (.json r) ∧
      r.success = true ∧ r.processing = true) :=
  ⟨Or.inl rfl, (claim3_single_response "generate_model" {}).2 (Or.inl rfl)⟩

/-- C4: credential lookup refines the fixed tier order memory, durable
store, client-held, environment (first truthy hit wins) and writes the hit
through into the memory tier; on the concrete A/B/C scenario get() returns
A from memory, clear() reports memory, durable store and client as cleared
(never the environment) while flagging the surviving environment value,
and a subsequent get() returns C from the environment. -/
theorem claim4_credential_precedence :
    (∀ st : KeyState,
       (handle_get_cached_api_key st).2.api_key = specCredentialLookup st) ∧
    (∀ st : KeyState, (handle_get_cached_api_key st).2.has_cached_key = true →
       (handle_get_cached_api_key st).1.memory
         = (handle_get_cached_api_key st).2.api_key) ∧
    (handle_get_cached_api_key { memory := some "A", durable := some "B", env := "C" }).2
      = ⟨true, some "A", true, "memory"⟩ ∧
    (handle_clear_cached_api_key { memory := some "A", durable := some "B", env := "C" }).2
      = ⟨true, ["memory", "fusion_attributes", "api_client"], true⟩ ∧
    ("environment" ∉ (handle_clear_cached_api_key
        { memory := some "A", durable := some "B", env := "C" }).2.cleared_sources) ∧
    (handle_get_cached_api_key (handle_clear_cached_api_key
        { memory := some "A", durable := some "B", env := "C" }).1).2
      = ⟨true, some "C", true, "environment"⟩ := by
  refine ⟨?_, ?_, by decide, by decide, by decide, by decide⟩
  · intro st
    by_cases h1 : pyTruthy st.memory <;>
    by_cases h2 : st.utilsPresent <;>
    by_cases h3 : pyTruthy (fusionRetrieve st) <;>
    by_cases h4 : st.clientPresent <;>
    by_cases h5 : pyTruthy st.clientKey <;>
    by_cases h6 : pyTruthy (some st.env) <;>
    simp_all [handle_get_cached_api_key, specCredentialLookup, pyTruthy]
  · intro st h
    by_cases h1 : pyTruthy st.memory <;>
    by_cases h2 : st.utilsPresent <;>
    by_cases h3 : pyTruthy (fusionRetrieve st) <;>
    by_cases h4 : st.clientPresent <;>
    by_cases h5 : pyTruthy st.clientKey <;>
    by_cases h6 : pyTruthy (some st.env) <;>
    simp_all [handle_get_cached_api_key, pyTruthy]

/-- Witness for C4 write-through at a durable-tier hit. -/
theorem claim4_credential_precedence_witness :
    ((handle_get_cached_api_key { durable := some "B" }).2.has_cached_key = true) ∧
    (handle_get_cached_api_key { durable := some "B" }).1.memory
      = (handle_get_cached_api_key { durable := some "B" }).2.api_key :=
  ⟨by decide, claim4_credential_precedence.2.1 { durable := some "B" } (by decide)⟩

/-- C9: finalizing a first-time generation never issues a clear-geometry
call and leaves the existing bodies and occurrences untouched, while
finalizing an iteration that reaches the Fusion import issues exactly one
clear-geometry call before the import call (emptying the root component
when the clear succeeds), and proceeds with the import even when the
clear fails. -/
theorem claim9_iteration_clears_geometry :
    (∀ (req : ImportReq) (env : ImportEnv) (d : Design),
       req.is_iteration = false →
       CadCall.clearGeometry ∉ (handle_step_import req env d).2.2 ∧
       (handle_step_import req env d).2.1.bodies = d.bodies ∧
       (handle_step_import req env d).2.1.occurrences = d.occurrences) ∧
    (∀ (req : ImportReq) (env : ImportEnv) (d : Design),
       req.is_iteration = true → req.step_file_data ≠ "" →
       env.decodeOk = true → env.saveOk = true → env.designPresent = true →
       (handle_step_import req env d).2.2
         = [CadCall.clearGeometry, CadCall.importArtifact] ∧
       (env.clearOk = true → (handle_step_import req env d).2.1.bodies = [] ∧
          (handle_step_import req env d).2.1.occurrences = []) ∧
       (env.importOk = true → (handle_step_import req env d).1.success = true)) := by
  constructor
  · intro req env d h
    rw [handle_step_import]
    split_ifs <;> simp [clearPhase, clearCalls, h]
  · intro req env d h1 h2 h3 h4 h5
    have c1 : (req.step_file_data == "") = false := by simpa using h2
    rw [handle_step_import]
    by_cases c6 : env.importOk <;>
      simp_all [clearPhase, clearCalls]

/-- Witness for C9 on a concrete iteration with a failing clear. -/
theorem claim9_iteration_clears_geometry_witness :
    (({ step_file_data := "U1RFUA==", is_iteration := true } : ImportReq).is_iteration = true ∧
     ({ step_file_data := "U1RFUA==", is_iteration := true } : ImportReq).step_file_data ≠ "" ∧
     ({ clearOk := false, leftoverBodies := ["b1"] } : ImportEnv).decodeOk = true ∧
     ({ clearOk := false, leftoverBodies := ["b1"] } : ImportEnv).saveOk = true ∧
     ({ clearOk := false, leftoverBodies := ["b1"] } : ImportEnv).designPresent = true) ∧
    ((handle_step_import { step_file_data := "U1RFUA==", is_iteration := true }
        { clearOk := false, leftoverBodies := ["b1"] }
        { bodies := ["b0"], occurrences := ["o0"] }).2.2
       = [CadCall.clearGeometry, CadCall.importArtifact] ∧
     (({ clearOk := false, leftoverBodies := ["b1"] } : ImportEnv).clearOk = true →
        (handle_step_import { step_file_data := "U1RFUA==", is_iteration := true }
          { clearOk := false, leftoverBodies := ["b1"] }
          { bodies := ["b0"], occurrences := ["o0"] }).2.1.bodies = [] ∧
        (handle_step_import { step_file_data := "U1RFUA==", is_iteration := true }
          { clearOk := false, leftoverBodies := ["b1"] }
          { bodies := ["b0"], occurrences := ["o0"] }).2.1.occurrences = []) ∧
     (({ clearOk := false, leftoverBodies := ["b1"] } : ImportEnv).importOk = true →
        (handle_step_import { step_file_data := "U1RFUA==", is_iteration := true }
          { clearOk := false, leftoverBodies := ["b1"] }
          { bodies := ["b0"], occurrences := ["o0"] }).1.success = true)) :=
  ⟨⟨rfl, by decide, rfl, rfl, rfl⟩,
   claim9_iteration_clears_geometry.2
     { step_file_data := "U1RFUA==", is_iteration := true }
     { clearOk := false, leftoverBodies := ["b1"] }
     { bodies := ["b0"], occurrences := ["o0"] }
     rfl (by decide) rfl rfl rfl⟩

end CADAgent
